import Mathlib

/-!
# Verification of the `PresentationController` of `script.js`

A shallow embedding of the slide-navigation controller of
`src/script.js`.  Browser/DOM interactions are modelled explicitly:

* mutable instance fields of the JS class become fields of `PState`;
* DOM attributes and classes the controller reads or writes (the
  `muted` class and volume icon on the sound toggle, the `fullscreen`
  and `presentation-mode` classes, the progress bar, the active nav
  dot, the `aria-hidden` attributes of the slides, and
  `window.location.hash`) become further fields of `PState`;
* fire-and-forget browser calls (fullscreen requests, the transition
  sound, the per-slide animations, the screen-reader announcement, the
  DOM class dance of a slide transition) become entries of an `Effect`
  list that each handler returns beside the new state.

Each handler is translated line by line from the source.
-/

/-- Side effects a handler emits towards the browser, in program order. -/
inductive Effect where
  /-- the active/prev class dance on the slide elements (lines 242–258) -/
  | slideTransition (fromSlide toSlide : Nat)
  /-- `updateProgress()` writes the progress-bar width -/
  | progressUpdate (slide total : Nat)
  /-- `updateNavDots()` re-highlights the dots -/
  | navDotsUpdate (slide : Nat)
  /-- `updateURL()` replaces the location hash -/
  | urlUpdate (hash : String)
  /-- `triggerSlideAnimations(n)` -/
  | slideAnimations (slide : Nat)
  /-- a transition sound is synthesised (`playTransitionSound` past its guard) -/
  | transitionSound
  /-- `announceSlideChange()` inserts the aria-live announcement -/
  | announce (slide total : Nat)
  /-- `enterFullscreen()` issues a browser fullscreen request -/
  | requestFullscreen
  /-- `exitFullscreen()` asks the browser to leave fullscreen -/
  | exitFullscreenRequest
deriving DecidableEq, Repr

/-- The controller state: the JS instance fields together with the DOM
state the controller owns. -/
structure PState where
  currentSlide : Nat
  totalSlides : Nat
  isFullscreen : Bool
  isPresentationMode : Bool
  soundEnabled : Bool
  touchStartX : Int
  touchEndX : Int
  isLoaded : Bool
  /-- presence of the `muted` class on `#sound-toggle` -/
  mutedClass : Bool
  /-- `className` of the icon inside `#sound-toggle` -/
  volumeIcon : String
  /-- presence of the `fullscreen` class on `#presentation` -/
  fullscreenClass : Bool
  /-- presence of the `presentation-mode` class on `#presentation` -/
  presentationModeClass : Bool
  /-- whether a cursor-hide timeout is pending -/
  cursorTimeoutSet : Bool
  /-- `window.location.hash` -/
  urlHash : String
  /-- the slide the progress-bar width was last computed from -/
  progressSlide : Nat
  /-- the nav dot currently carrying the `active` class -/
  activeDot : Nat
  /-- `aria-hidden` attribute of each slide, index 0 = slide 1 -/
  ariaHidden : List Bool
deriving DecidableEq, Repr

namespace Presentation

/-- JS `parseInt` restricted to radix 10: skip leading spaces and an
optional sign, then read a maximal non-empty digit prefix; `none`
models `NaN`. -/
def parseLeadingNat (cs : List Char) : Option Nat :=
  let ds := cs.takeWhile Char.isDigit
  if ds.isEmpty then none
  else some (ds.foldl (fun a c => a * 10 + (c.toNat - 48)) 0)

/-- JS `parseInt(s)` (decimal); `none` is `NaN`. -/
def parseIntJS (s : String) : Option Int :=
  match s.data.dropWhile (fun c => c = ' ') with
  | '-' :: rest => (parseLeadingNat rest).map (fun n => -(n : Int))
  | '+' :: rest => (parseLeadingNat rest).map (fun n => (n : Int))
  | cs => (parseLeadingNat cs).map (fun n => (n : Int))

/-- The regex literal at line 306 is `/#slide(\\d+)/`.  Inside a regex
literal `\\` matches one literal backslash character and `d+` one or
more letters `d`, so the pattern matches `#slide` followed by a
backslash followed by a maximal non-empty run of `d`s; the capture
group is the backslash and that run.  This tries the pattern at the
head of `cs`. -/
def slideMatchAt (cs : List Char) : Option (List Char) :=
  match cs with
  | '#' :: 's' :: 'l' :: 'i' :: 'd' :: 'e' :: '\\' :: rest =>
      let ds := rest.takeWhile (fun c => c = 'd')
      if ds.isEmpty then none else some ('\\' :: ds)
  | _ => none

/-- `String.prototype.match` scans for the first position where the
pattern matches; `none` models a `null` match result. -/
def slideSearch : List Char → Option (List Char)
  | [] => none
  | c :: cs =>
      match slideMatchAt (c :: cs) with
      | some cap => some cap
      | none => slideSearch cs

/-- `hash.match(/#slide(\\d+)/)`, returning capture group 1. -/
def slideHashMatch (hash : String) : Option String :=
  (slideSearch hash.data).map (fun cs => String.mk cs)

/-- `updateProgress()` (lines 277–280): recompute the progress-bar
width from `currentSlide / totalSlides`. -/
def updateProgress (s : PState) : PState × List Effect :=
  ({ s with progressSlide := s.currentSlide },
   [Effect.progressUpdate s.currentSlide s.totalSlides])

/-- `updateNavDots()` (lines 285–289): toggle `active` so that exactly
the dot of the current slide carries it. -/
def updateNavDots (s : PState) : PState × List Effect :=
  ({ s with activeDot := s.currentSlide }, [Effect.navDotsUpdate s.currentSlide])

/-- `updateURL()` (lines 294–299): replace the location hash with
`#slide{currentSlide}` when it differs. -/
def updateURL (s : PState) : PState × List Effect :=
  let newHash := "#slide" ++ toString s.currentSlide
  if s.urlHash ≠ newHash then
    ({ s with urlHash := newHash }, [Effect.urlUpdate newHash])
  else (s, [])

/-- `playTransitionSound()` (lines 452–477): returns without effect
when sound is disabled, otherwise synthesises the tone. -/
def playTransitionSound (s : PState) : List Effect :=
  if s.soundEnabled then [Effect.transitionSound] else []

/-- `goToSlide(slideNumber)` (lines 236–271), before the accessibility
wrapper of `setupAccessibility` is layered on. -/
def goToSlide (s : PState) (slideNumber : Int) : PState × List Effect :=
  if slideNumber < 1 ∨ slideNumber > (s.totalSlides : Int)
      ∨ slideNumber = (s.currentSlide : Int) then
    (s, [])
  else
    let previousSlide := s.currentSlide
    let s1 := { s with currentSlide := slideNumber.toNat }
    let (s2, e2) := updateProgress s1
    let (s3, e3) := updateNavDots s2
    let (s4, e4) := updateURL s3
    (s4,
     Effect.slideTransition previousSlide s1.currentSlide ::
       (e2 ++ e3 ++ e4
        ++ [Effect.slideAnimations s1.currentSlide]
        ++ playTransitionSound s4
        ++ [Effect.announce s4.currentSlide s4.totalSlides]))

/-- The `aria-hidden` update of the `setupAccessibility` wrapper
(lines 613–615): each slide is hidden iff it is not current. -/
def setAriaHidden (s : PState) : PState :=
  { s with ariaHidden :=
      (List.range s.totalSlides).map (fun index => decide (index + 1 ≠ s.currentSlide)) }

/-- `this.goToSlide` as reassigned by `setupAccessibility`
(lines 609–616): run the original, then refresh every slide's
`aria-hidden`.  All calls after construction go through this. -/
def goToSlideA (s : PState) (slideNumber : Int) : PState × List Effect :=
  let (s', es) := goToSlide s slideNumber
  (setAriaHidden s', es)

/-- `nextSlide()` (lines 218–222). -/
def nextSlide (s : PState) : PState × List Effect :=
  if s.currentSlide < s.totalSlides then goToSlideA s ((s.currentSlide : Int) + 1)
  else (s, [])

/-- `previousSlide()` (lines 227–231). -/
def previousSlide (s : PState) : PState × List Effect :=
  if s.currentSlide > 1 then goToSlideA s ((s.currentSlide : Int) - 1)
  else (s, [])

/-- `handleSwipe()` (lines 200–213). -/
def handleSwipe (s : PState) : PState × List Effect :=
  let swipeThreshold : Int := 50
  let swipeDistance : Int := s.touchEndX - s.touchStartX
  if |swipeDistance| > swipeThreshold then
    if swipeDistance > 0 then previousSlide s else nextSlide s
  else (s, [])

/-- `handleTouchStart(event)` (lines 176–185): guarded by `isLoaded`;
records the touch X coordinate.  (The `preventDefault` branch compares
the coordinate with itself and is inert.) -/
def handleTouchStart (s : PState) (screenX : Int) : PState :=
  if !s.isLoaded then s
  else { s with touchStartX := screenX }

/-- `handleTouchEnd(event)` (lines 190–195): guarded by `isLoaded`;
records the end coordinate and processes the swipe. -/
def handleTouchEnd (s : PState) (screenX : Int) : PState × List Effect :=
  if !s.isLoaded then (s, [])
  else handleSwipe { s with touchEndX := screenX }

/-- `handleHashNavigation()` (lines 304–314).  A failed match and a
`NaN` from `parseInt` both leave the state alone (`NaN >= 1` is
false). -/
def handleHashNavigation (s : PState) : PState × List Effect :=
  match slideHashMatch s.urlHash with
  | none => (s, [])
  | some cap =>
      match parseIntJS cap with
      | none => (s, [])
      | some slideNumber =>
          if 1 ≤ slideNumber ∧ slideNumber ≤ (s.totalSlides : Int) then
            goToSlideA s slideNumber
          else (s, [])

/-- `enterPresentationMode()` (lines 391–395). -/
def enterPresentationMode (s : PState) : PState :=
  { s with isPresentationMode := true, presentationModeClass := true,
           cursorTimeoutSet := true }

/-- `exitPresentationMode()` (lines 400–404). -/
def exitPresentationMode (s : PState) : PState :=
  { s with isPresentationMode := false, presentationModeClass := false,
           cursorTimeoutSet := false }

/-- `togglePresentationMode()` (lines 380–386). -/
def togglePresentationMode (s : PState) : PState :=
  if !s.isPresentationMode then enterPresentationMode s
  else exitPresentationMode s

/-- `toggleFullscreen()` (lines 319–325): only issues a browser
request; the flags change when the fullscreen-change event arrives. -/
def toggleFullscreen (s : PState) : PState × List Effect :=
  if !s.isFullscreen then (s, [Effect.requestFullscreen])
  else (s, [Effect.exitFullscreenRequest])

/-- `handleFullscreenChange()` (lines 362–375); `fsElement` is whether
the browser reports an active fullscreen element. -/
def handleFullscreenChange (s : PState) (fsElement : Bool) : PState :=
  let s1 := { s with isFullscreen := fsElement, fullscreenClass := fsElement }
  if s1.isFullscreen then enterPresentationMode s1 else s1

/-- `toggleSound()` (lines 441–447). -/
def toggleSound (s : PState) : PState :=
  let enabled := !s.soundEnabled
  { s with soundEnabled := enabled,
           mutedClass := !enabled,
           volumeIcon := if enabled then "fas fa-volume-up" else "fas fa-volume-mute" }

/-- The nav-dot click listener (lines 76–78):
`dot.addEventListener('click', () => this.goToSlide(index + 1))` —
note there is no `isLoaded` guard. -/
def handleNavDotClick (s : PState) (index : Nat) : PState × List Effect :=
  goToSlideA s ((index : Int) + 1)

/-- The sound-toggle click listener (line 81):
`this.soundToggle.addEventListener('click', () => this.toggleSound())`
— again no `isLoaded` guard. -/
def handleSoundToggleClick (s : PState) : PState :=
  toggleSound s

/-- `handleKeyDown(event)` (lines 109–171), by `event.key`. -/
def handleKeyDown (s : PState) (key : String) : PState × List Effect :=
  if !s.isLoaded then (s, [])
  else if key = "ArrowRight" ∨ key = " " ∨ key = "PageDown" then nextSlide s
  else if key = "ArrowLeft" ∨ key = "PageUp" then previousSlide s
  else if key = "Home" then goToSlideA s 1
  else if key = "End" then goToSlideA s (s.totalSlides : Int)
  else if key = "f" ∨ key = "F" then toggleFullscreen s
  else if key = "Escape" then
    (exitPresentationMode s,
     if s.isFullscreen then [Effect.exitFullscreenRequest] else [])
  else if key = "p" ∨ key = "P" then (togglePresentationMode s, [])
  else if key = "1" ∨ key = "2" ∨ key = "3" ∨ key = "4" ∨ key = "5"
      ∨ key = "6" ∨ key = "7" then
    match parseIntJS key with
    | some slideNum =>
        if slideNum ≤ (s.totalSlides : Int) then goToSlideA s slideNum else (s, [])
    | none => (s, [])
  else (s, [])

/-- The state right after `new PresentationController()` returns:
the constructor fields (lines 8–16) followed by the synchronous part
of `init()` — `updateProgress`, `updateNavDots`, and the initial
`aria-hidden` loop of `setupAccessibility` (lines 604–606).
`hash0`, `muted0` and `icon0` are whatever the surrounding document
supplies. -/
def constructedState (hash0 : String) (muted0 : Bool) (icon0 : String) : PState :=
  let s0 : PState :=
    { currentSlide := 1, totalSlides := 7,
      isFullscreen := false, isPresentationMode := false,
      soundEnabled := true, touchStartX := 0, touchEndX := 0,
      isLoaded := false,
      mutedClass := muted0, volumeIcon := icon0,
      fullscreenClass := false, presentationModeClass := false,
      cursorTimeoutSet := false,
      urlHash := hash0, progressSlide := 0, activeDot := 0,
      ariaHidden := [] }
  let (s1, _) := updateProgress s0
  let (s2, _) := updateNavDots s1
  setAriaHidden s2

/-- The delayed body of `handleInitialLoad` (lines 47–61): mark the
controller loaded, process any URL hash, trigger the initial slide's
animations. -/
def loadComplete (s : PState) : PState × List Effect :=
  let s1 := { s with isLoaded := true }
  let (s2, es) := handleHashNavigation s1
  (s2, es ++ [Effect.slideAnimations s2.currentSlide])

/-- `getCurrentSlideInfo()`'s record (lines 654–662), minus the
`title` field, which is read from slide markup outside this file. -/
structure SlideInfo where
  current : Nat
  total : Nat
  isFullscreen : Bool
  isPresentationMode : Bool
deriving DecidableEq, Repr

/-- `getCurrentSlideInfo()` (lines 654–662). -/
def getCurrentSlideInfo (s : PState) : SlideInfo :=
  { current := s.currentSlide, total := s.totalSlides,
    isFullscreen := s.isFullscreen, isPresentationMode := s.isPresentationMode }

/-- The controller's slide-index invariant: `1 ≤ currentSlide ≤ totalSlides`. -/
def Inv (s : PState) : Prop :=
  1 ≤ s.currentSlide ∧ s.currentSlide ≤ s.totalSlides

instance (s : PState) : Decidable (Inv s) := by unfold Inv; infer_instance

/-- The `aria-hidden` attributes are in sync with the current slide. -/
def ariaConsistent (s : PState) : Prop :=
  s.ariaHidden = (List.range s.totalSlides).map (fun i => decide (i + 1 ≠ s.currentSlide))

instance (s : PState) : Decidable (ariaConsistent s) := by
  unfold ariaConsistent; infer_instance

/-- The mute indicator (class and icon) is in sync with `soundEnabled`. -/
def soundConsistent (s : PState) : Prop :=
  s.mutedClass = !s.soundEnabled ∧
  s.volumeIcon = (if s.soundEnabled then "fas fa-volume-up" else "fas fa-volume-mute")

instance (s : PState) : Decidable (soundConsistent s) := by
  unfold soundConsistent; infer_instance

/-- A controller state after construction with URL hash `h`, loading
finished, everything else untouched. -/
def loadedWithHash (h : String) : PState :=
  { constructedState h false "fas fa-volume-up" with isLoaded := true }

@[simp] theorem setAriaHidden_currentSlide (s : PState) :
    (setAriaHidden s).currentSlide = s.currentSlide := rfl

@[simp] theorem setAriaHidden_totalSlides (s : PState) :
    (setAriaHidden s).totalSlides = s.totalSlides := rfl

theorem setAriaHidden_eq_self (s : PState) (h : ariaConsistent s) :
    setAriaHidden s = s := by
  unfold ariaConsistent at h
  unfold setAriaHidden
  rw [← h]

theorem goToSlideA_def (s : PState) (n : Int) :
    goToSlideA s n = (setAriaHidden (goToSlide s n).1, (goToSlide s n).2) := rfl

theorem goToSlide_of_guard (s : PState) (n : Int)
    (h : n < 1 ∨ n > (s.totalSlides : Int) ∨ n = (s.currentSlide : Int)) :
    goToSlide s n = (s, []) := by
  unfold goToSlide
  rw [if_pos h]

theorem goToSlide_fst_fields (s : PState) (n : Int)
    (h : ¬(n < 1 ∨ n > (s.totalSlides : Int) ∨ n = (s.currentSlide : Int))) :
    (goToSlide s n).1.currentSlide = n.toNat ∧
      (goToSlide s n).1.totalSlides = s.totalSlides := by
  unfold goToSlide
  rw [if_neg h]
  simp only [updateProgress, updateNavDots, updateURL]
  split <;> exact ⟨rfl, rfl⟩

theorem goToSlideA_currentSlide (s : PState) (n : Int)
    (h1 : 1 ≤ n) (h2 : n ≤ (s.totalSlides : Int)) :
    (goToSlideA s n).1.currentSlide = n.toNat := by
  rw [goToSlideA_def]
  simp only [setAriaHidden_currentSlide]
  by_cases hg : n < 1 ∨ n > (s.totalSlides : Int) ∨ n = (s.currentSlide : Int)
  · rw [goToSlide_of_guard s n hg]
    rcases hg with hg | hg | hg
    · omega
    · omega
    · simp only [hg]
      omega
  · exact (goToSlide_fst_fields s n hg).1

theorem goToSlideA_totalSlides (s : PState) (n : Int) :
    (goToSlideA s n).1.totalSlides = s.totalSlides := by
  rw [goToSlideA_def]
  simp only [setAriaHidden_totalSlides]
  by_cases hg : n < 1 ∨ n > (s.totalSlides : Int) ∨ n = (s.currentSlide : Int)
  · rw [goToSlide_of_guard s n hg]
  · exact (goToSlide_fst_fields s n hg).2

theorem inv_goToSlideA (s : PState) (n : Int) (h : Inv s) :
    Inv (goToSlideA s n).1 := by
  rw [goToSlideA_def]
  by_cases hg : n < 1 ∨ n > (s.totalSlides : Int) ∨ n = (s.currentSlide : Int)
  · rw [goToSlide_of_guard s n hg]
    exact h
  · obtain ⟨hc, ht⟩ := goToSlide_fst_fields s n hg
    push_neg at hg
    constructor
    · simp only [setAriaHidden_currentSlide, hc]
      omega
    · simp only [setAriaHidden_currentSlide, setAriaHidden_totalSlides, hc, ht]
      omega

theorem inv_nextSlide (s : PState) (h : Inv s) : Inv (nextSlide s).1 := by
  unfold nextSlide
  split
  · exact inv_goToSlideA _ _ h
  · exact h

theorem inv_previousSlide (s : PState) (h : Inv s) : Inv (previousSlide s).1 := by
  unfold previousSlide
  split
  · exact inv_goToSlideA _ _ h
  · exact h

theorem inv_of_fields {s t : PState} (h : Inv s)
    (hc : t.currentSlide = s.currentSlide) (ht : t.totalSlides = s.totalSlides) :
    Inv t := by
  unfold Inv at h ⊢
  omega

theorem inv_handleSwipe (s : PState) (h : Inv s) : Inv (handleSwipe s).1 := by
  simp only [handleSwipe]
  split
  · split
    · exact inv_previousSlide _ h
    · exact inv_nextSlide _ h
  · exact h

theorem inv_handleHashNavigation (s : PState) (h : Inv s) :
    Inv (handleHashNavigation s).1 := by
  unfold handleHashNavigation
  split
  · exact h
  split
  · exact h
  split
  · exact inv_goToSlideA _ _ h
  · exact h

theorem inv_handleKeyDown (s : PState) (key : String) (h : Inv s) :
    Inv (handleKeyDown s key).1 := by
  unfold handleKeyDown
  split
  · exact h
  split
  · exact inv_nextSlide _ h
  split
  · exact inv_previousSlide _ h
  split
  · exact inv_goToSlideA _ _ h
  split
  · exact inv_goToSlideA _ _ h
  split
  · unfold toggleFullscreen
    split <;> exact h
  split
  · exact inv_of_fields h rfl rfl
  split
  · refine inv_of_fields h ?_ ?_ <;>
      (unfold togglePresentationMode enterPresentationMode exitPresentationMode
       split <;> rfl)
  split
  · split
    · split
      · exact inv_goToSlideA _ _ h
      · exact h
    · exact h
  · exact h

theorem inv_handleTouchStart (s : PState) (x : Int) (h : Inv s) :
    Inv (handleTouchStart s x) := by
  unfold handleTouchStart
  split
  · exact h
  · exact inv_of_fields h rfl rfl

theorem inv_handleTouchEnd (s : PState) (x : Int) (h : Inv s) :
    Inv (handleTouchEnd s x).1 := by
  unfold handleTouchEnd
  split
  · exact h
  · exact inv_handleSwipe _ (inv_of_fields h rfl rfl)

theorem inv_toggleSound (s : PState) (h : Inv s) : Inv (toggleSound s) :=
  inv_of_fields h rfl rfl

theorem inv_togglePresentationMode (s : PState) (h : Inv s) :
    Inv (togglePresentationMode s) := by
  refine inv_of_fields h ?_ ?_ <;>
    (unfold togglePresentationMode enterPresentationMode exitPresentationMode
     split <;> rfl)

theorem inv_toggleFullscreen (s : PState) (h : Inv s) :
    Inv (toggleFullscreen s).1 := by
  unfold toggleFullscreen
  split <;> exact h

theorem inv_handleFullscreenChange (s : PState) (b : Bool) (h : Inv s) :
    Inv (handleFullscreenChange s b) := by
  refine inv_of_fields h ?_ ?_ <;>
    (simp only [handleFullscreenChange, enterPresentationMode]
     split <;> rfl)

theorem inv_handleNavDotClick (s : PState) (i : Nat) (h : Inv s) :
    Inv (handleNavDotClick s i).1 :=
  inv_goToSlideA _ _ h

theorem loadComplete_fst (s : PState) :
    (loadComplete s).1 = (handleHashNavigation { s with isLoaded := true }).1 := rfl

theorem inv_loadComplete (s : PState) (h : Inv s) : Inv (loadComplete s).1 := by
  rw [loadComplete_fst]
  exact inv_handleHashNavigation _ (inv_of_fields h rfl rfl)

theorem inv_constructedState (hash0 : String) (muted0 : Bool) (icon0 : String) :
    Inv (constructedState hash0 muted0 icon0) := by
  constructor
  · show 1 ≤ 1
    exact Nat.le_refl 1
  · show 1 ≤ 7
    omega

theorem setAriaHidden_length (t : PState) :
    (setAriaHidden t).ariaHidden.length = t.totalSlides := by
  unfold setAriaHidden
  simp

theorem setAriaHidden_get (t : PState) (i : Nat) (hi : i < t.totalSlides) :
    (setAriaHidden t).ariaHidden[i]? = some (decide (i + 1 ≠ t.currentSlide)) := by
  unfold setAriaHidden
  simp [List.getElem?_map, List.getElem?_range, hi]

/-- C1 (code bug): the regex literal `/#slide(\\d+)/` of
`handleHashNavigation` requires a literal backslash between `slide`
and the number, so the hash `#slide4` never matches: hash navigation
to slide 4 does not happen — neither through a direct hash-change
invocation on a loaded controller nor through the load sequence — and
the current slide stays 1, where the spec says the controller
navigates to slide 4. -/
theorem claim1_hash_slide4_not_navigated :
    slideHashMatch "#slide4" = none ∧
    handleHashNavigation (loadedWithHash "#slide4")
        = (loadedWithHash "#slide4", []) ∧
    (loadedWithHash "#slide4").currentSlide = 1 ∧
    (loadComplete
        (constructedState "#slide4" false "fas fa-volume-up")).1.currentSlide = 1 := by
  refine ⟨rfl, rfl, rfl, rfl⟩

/-- C2 (counterexample): a navigation-dot click and a sound-toggle
click arriving while `isLoaded` is still false are NOT ignored — the
click listeners registered in `setupEventListeners` have no `isLoaded`
guard — so the claim that every input event before load completion
leaves the state unchanged is false: clicking dot index 1 navigates to
slide 2 and clicking the sound toggle flips `soundEnabled`. -/
theorem claim2_counterexample :
    (constructedState "" false "fas fa-volume-up").isLoaded = false ∧
    (constructedState "" false "fas fa-volume-up").currentSlide = 1 ∧
    (handleNavDotClick (constructedState "" false "fas fa-volume-up") 1).1.currentSlide
        = 2 ∧
    (constructedState "" false "fas fa-volume-up").soundEnabled = true ∧
    (handleSoundToggleClick (constructedState "" false "fas fa-volume-up")).soundEnabled
        = false := by
  refine ⟨rfl, rfl, rfl, rfl, rfl⟩

/-- C2 (amended): keyboard key-down, touch-start and touch-end events
arriving before the initial load sequence completes leave the state
entirely unchanged and produce no effects; the navigation-dot and
sound-toggle click listeners carry no such guard and do take effect
before load. -/
theorem claim2_unloaded_input_ignored (s : PState) (key : String) (x y : Int)
    (h : s.isLoaded = false) :
    handleKeyDown s key = (s, []) ∧
    handleTouchStart s x = s ∧
    handleTouchEnd s y = (s, []) := by
  refine ⟨?_, ?_, ?_⟩
  · unfold handleKeyDown
    rw [h]
    rfl
  · unfold handleTouchStart
    rw [h]
    rfl
  · unfold handleTouchEnd
    rw [h]
    rfl

/-- C2 witness: a freshly constructed (not yet loaded) controller
ignores an ArrowRight key and a touch gesture. -/
theorem claim2_unloaded_input_ignored_witness :
    handleKeyDown (constructedState "" false "fas fa-volume-up") "ArrowRight"
        = (constructedState "" false "fas fa-volume-up", []) ∧
    handleTouchStart (constructedState "" false "fas fa-volume-up") 10
        = constructedState "" false "fas fa-volume-up" ∧
    handleTouchEnd (constructedState "" false "fas fa-volume-up") 200
        = (constructedState "" false "fas fa-volume-up", []) :=
  claim2_unloaded_input_ignored (constructedState "" false "fas fa-volume-up")
    "ArrowRight" 10 200 rfl

/-- C3: for every `n` in `[1,7]`, `goToSlide(n)` followed by
`getCurrentSlideInfo()` yields `current = n` and `total = 7`. -/
theorem claim3_goToSlide_then_info (s : PState) (n : Nat)
    (h7 : s.totalSlides = 7) (h1 : 1 ≤ n) (h2 : n ≤ 7) :
    (getCurrentSlideInfo (goToSlideA s (n : Int)).1).current = n ∧
    (getCurrentSlideInfo (goToSlideA s (n : Int)).1).total = 7 := by
  constructor
  · show (goToSlideA s (n : Int)).1.currentSlide = n
    rw [goToSlideA_currentSlide s (n : Int) (by omega) (by omega)]
    omega
  · show (goToSlideA s (n : Int)).1.totalSlides = 7
    rw [goToSlideA_totalSlides, h7]

/-- C3 witness: from the freshly constructed controller, `goToSlide 4`
reports slide 4 of 7. -/
theorem claim3_goToSlide_then_info_witness :
    (getCurrentSlideInfo
        (goToSlideA (constructedState "" false "fas fa-volume-up") (4 : Int)).1).current
      = 4 ∧
    (getCurrentSlideInfo
        (goToSlideA (constructedState "" false "fas fa-volume-up") (4 : Int)).1).total
      = 7 :=
  claim3_goToSlide_then_info (constructedState "" false "fas fa-volume-up") 4
    rfl (by norm_num) (by norm_num)

/-- C4: for `n < 1`, `n > 7` or `n` equal to the current slide,
`goToSlide n` returns the state unchanged and emits no effects — both
the raw `goToSlide` and, on states whose `aria-hidden` attributes are
in sync, the accessibility-wrapped version installed at
construction. -/
theorem claim4_goToSlide_noop (s : PState) (n : Int) (h7 : s.totalSlides = 7)
    (h : n < 1 ∨ 7 < n ∨ n = (s.currentSlide : Int)) :
    goToSlide s n = (s, []) ∧
    (ariaConsistent s → goToSlideA s n = (s, [])) := by
  have hg : n < 1 ∨ n > (s.totalSlides : Int) ∨ n = (s.currentSlide : Int) := by
    omega
  refine ⟨goToSlide_of_guard s n hg, fun hc => ?_⟩
  rw [goToSlideA_def, goToSlide_of_guard s n hg]
  show (setAriaHidden s, ([] : List Effect)) = (s, [])
  rw [setAriaHidden_eq_self s hc]

/-- C4 witness: on the freshly constructed controller (whose
`aria-hidden` attributes are in sync), `goToSlide 0`, `goToSlide 8`
and `goToSlide 1` (the current slide) are no-ops. -/
theorem claim4_goToSlide_noop_witness :
    goToSlideA (constructedState "" false "fas fa-volume-up") 0
        = (constructedState "" false "fas fa-volume-up", []) ∧
    goToSlideA (constructedState "" false "fas fa-volume-up") 8
        = (constructedState "" false "fas fa-volume-up", []) ∧
    goToSlideA (constructedState "" false "fas fa-volume-up") 1
        = (constructedState "" false "fas fa-volume-up", []) :=
  ⟨(claim4_goToSlide_noop (constructedState "" false "fas fa-volume-up") 0 rfl
      (by norm_num)).2 (by decide),
   (claim4_goToSlide_noop (constructedState "" false "fas fa-volume-up") 8 rfl
      (by norm_num)).2 (by decide),
   (claim4_goToSlide_noop (constructedState "" false "fas fa-volume-up") 1 rfl
      (Or.inr (Or.inr (by decide)))).2 (by decide)⟩

/-- C5: `1 ≤ currentSlide ≤ totalSlides` holds after construction and
is preserved by every operation of the controller. -/
theorem claim5_slide_invariant (hash0 : String) (muted0 : Bool) (icon0 : String)
    (s : PState) (h : Inv s) :
    Inv (constructedState hash0 muted0 icon0) ∧
    (∀ n : Int, Inv (goToSlideA s n).1) ∧
    Inv (nextSlide s).1 ∧
    Inv (previousSlide s).1 ∧
    (∀ key : String, Inv (handleKeyDown s key).1) ∧
    Inv (handleHashNavigation s).1 ∧
    (∀ x : Int, Inv (handleTouchStart s x)) ∧
    (∀ x : Int, Inv (handleTouchEnd s x).1) ∧
    Inv (handleSwipe s).1 ∧
    Inv (toggleSound s) ∧
    Inv (togglePresentationMode s) ∧
    (∀ b : Bool, Inv (handleFullscreenChange s b)) ∧
    Inv (toggleFullscreen s).1 ∧
    (∀ i : Nat, Inv (handleNavDotClick s i).1) ∧
    Inv (loadComplete s).1 :=
  ⟨inv_constructedState hash0 muted0 icon0,
   fun n => inv_goToSlideA s n h,
   inv_nextSlide s h,
   inv_previousSlide s h,
   fun key => inv_handleKeyDown s key h,
   inv_handleHashNavigation s h,
   fun x => inv_handleTouchStart s x h,
   fun x => inv_handleTouchEnd s x h,
   inv_handleSwipe s h,
   inv_toggleSound s h,
   inv_togglePresentationMode s h,
   fun b => inv_handleFullscreenChange s b h,
   inv_toggleFullscreen s h,
   fun i => inv_handleNavDotClick s i h,
   inv_loadComplete s h⟩

/-- C5 witness: the invariant holds on the freshly constructed
controller and is preserved there by `goToSlide 3` and by a
PageDown key press after load. -/
theorem claim5_slide_invariant_witness :
    Inv (constructedState "" false "fas fa-volume-up") ∧
    Inv (goToSlideA (constructedState "" false "fas fa-volume-up") 3).1 ∧
    Inv (handleKeyDown (constructedState "" false "fas fa-volume-up") "PageDown").1 :=
  ⟨by decide,
   (claim5_slide_invariant "" false "fas fa-volume-up"
      (constructedState "" false "fas fa-volume-up") (by decide)).2.1 3,
   (claim5_slide_invariant "" false "fas fa-volume-up"
      (constructedState "" false "fas fa-volume-up") (by decide)).2.2.2.2.1 "PageDown"⟩

/-- C6: `nextSlide()` at slide 7 (of 7) and `previousSlide()` at
slide 1 leave the state unchanged and emit nothing: no wraparound. -/
theorem claim6_no_wraparound (s : PState) (h7 : s.totalSlides = 7) :
    (s.currentSlide = 7 → nextSlide s = (s, [])) ∧
    (s.currentSlide = 1 → previousSlide s = (s, [])) := by
  constructor
  · intro hc
    unfold nextSlide
    rw [if_neg (by omega)]
  · intro hc
    unfold previousSlide
    rw [if_neg (by omega)]

/-- C6 witness: at slide 7 `nextSlide` is inert, and at slide 1
`previousSlide` is inert. -/
theorem claim6_no_wraparound_witness :
    nextSlide (goToSlideA (constructedState "" false "fas fa-volume-up") 7).1
        = ((goToSlideA (constructedState "" false "fas fa-volume-up") 7).1, []) ∧
    previousSlide (constructedState "" false "fas fa-volume-up")
        = (constructedState "" false "fas fa-volume-up", []) :=
  ⟨(claim6_no_wraparound (goToSlideA (constructedState "" false "fas fa-volume-up") 7).1
      (by decide)).1 (by decide),
   (claim6_no_wraparound (constructedState "" false "fas fa-volume-up") rfl).2 rfl⟩

/-- C7: with `delta = touchEndX - touchStartX`, `handleSwipe` does
nothing when `|delta| ≤ 50`, invokes `nextSlide` when `delta < -50`
(leftward swipe), and invokes `previousSlide` when `delta > 50`
(rightward swipe). -/
theorem claim7_swipe (s : PState) :
    (|s.touchEndX - s.touchStartX| ≤ 50 → handleSwipe s = (s, [])) ∧
    (s.touchEndX - s.touchStartX < -50 → handleSwipe s = nextSlide s) ∧
    (s.touchEndX - s.touchStartX > 50 → handleSwipe s = previousSlide s) := by
  refine ⟨fun h => ?_, fun h => ?_, fun h => ?_⟩ <;> simp only [handleSwipe]
  · rw [if_neg (not_lt.mpr h)]
  · rw [if_pos (lt_abs.mpr (Or.inr (by omega))), if_neg (by omega)]
  · rw [if_pos (lt_abs.mpr (Or.inl h)), if_pos (by omega)]

/-- C7 witness: deltas of +30 (no-op), −60 (next) and +60 (previous)
on the loaded controller. -/
theorem claim7_swipe_witness :
    handleSwipe { loadedWithHash "" with touchStartX := 0, touchEndX := 30 }
        = ({ loadedWithHash "" with touchStartX := 0, touchEndX := 30 }, []) ∧
    handleSwipe { loadedWithHash "" with touchStartX := 100, touchEndX := 40 }
        = nextSlide { loadedWithHash "" with touchStartX := 100, touchEndX := 40 } ∧
    handleSwipe { loadedWithHash "" with touchStartX := 40, touchEndX := 100 }
        = previousSlide { loadedWithHash "" with touchStartX := 40, touchEndX := 100 } :=
  ⟨(claim7_swipe _).1 (by decide),
   (claim7_swipe _).2.1 (by decide),
   (claim7_swipe _).2.2 (by decide)⟩

/-- C8: a fullscreen-change notification reporting an active
fullscreen element sets `isFullscreen` and also enters presentation
mode. -/
theorem claim8_fullscreen_enters_presentation (s : PState) :
    (handleFullscreenChange s true).isFullscreen = true ∧
    (handleFullscreenChange s true).isPresentationMode = true :=
  ⟨rfl, rfl⟩

/-- C9: toggling sound twice restores `soundEnabled` for every state,
and restores the whole state — in particular the `muted` class and the
volume icon — whenever the mute indicator was in sync with
`soundEnabled`, as it is in every state the controller produces. -/
theorem claim9_toggleSound_involutive (s : PState) :
    (toggleSound (toggleSound s)).soundEnabled = s.soundEnabled ∧
    (soundConsistent s → toggleSound (toggleSound s) = s) := by
  constructor
  · simp [toggleSound]
  · rintro ⟨h1, h2⟩
    cases s
    simp only [toggleSound, Bool.not_not] at h1 h2 ⊢
    simp_all

/-- C9 witness: two sound toggles on the freshly constructed
controller restore it exactly. -/
theorem claim9_toggleSound_involutive_witness :
    soundConsistent (constructedState "" false "fas fa-volume-up") ∧
    toggleSound (toggleSound (constructedState "" false "fas fa-volume-up"))
        = constructedState "" false "fas fa-volume-up" :=
  ⟨by decide,
   (claim9_toggleSound_involutive (constructedState "" false "fas fa-volume-up")).2
     (by decide)⟩

/-- C10: after any call of the accessibility-wrapped `goToSlide`, the
`aria-hidden` list covers all slides, slide `i+1`'s attribute equals
whether it is not the current slide, and it is `false` exactly on the
current slide. -/
theorem claim10_ariaHidden_sync (s : PState) (n : Int) :
    (goToSlideA s n).1.ariaHidden.length = (goToSlideA s n).1.totalSlides ∧
    (∀ i, i < (goToSlideA s n).1.totalSlides →
      ((goToSlideA s n).1.ariaHidden[i]?
          = some (decide (i + 1 ≠ (goToSlideA s n).1.currentSlide)) ∧
        ((goToSlideA s n).1.ariaHidden[i]? = some false ↔
          i + 1 = (goToSlideA s n).1.currentSlide))) := by
  rw [goToSlideA_def]
  show (setAriaHidden (goToSlide s n).1).ariaHidden.length
      = (setAriaHidden (goToSlide s n).1).totalSlides ∧ _
  rw [setAriaHidden_length, setAriaHidden_totalSlides]
  refine ⟨rfl, fun i hi => ?_⟩
  rw [setAriaHidden_currentSlide,
      setAriaHidden_get (goToSlide s n).1 i (by exact hi)]
  constructor
  · rfl
  · constructor
    · intro hsome
      have : decide (i + 1 ≠ (goToSlide s n).1.currentSlide) = false :=
        Option.some.inj hsome
      simpa using this
    · intro heq
      simp [heq]

/-- C10 witness: after navigating to slide 3, slide 3 alone carries
`aria-hidden="false"`; checked at indices 2 and 0. -/
theorem claim10_ariaHidden_sync_witness :
    ((goToSlideA (constructedState "" false "fas fa-volume-up") 3).1.ariaHidden[2]?
        = some (decide (2 + 1
            ≠ (goToSlideA (constructedState "" false "fas fa-volume-up") 3).1.currentSlide)) ∧
      ((goToSlideA (constructedState "" false "fas fa-volume-up") 3).1.ariaHidden[2]?
          = some false ↔
        2 + 1 = (goToSlideA (constructedState "" false "fas fa-volume-up") 3).1.currentSlide)) ∧
    ((goToSlideA (constructedState "" false "fas fa-volume-up") 3).1.ariaHidden[0]?
        = some (decide (0 + 1
            ≠ (goToSlideA (constructedState "" false "fas fa-volume-up") 3).1.currentSlide)) ∧
      ((goToSlideA (constructedState "" false "fas fa-volume-up") 3).1.ariaHidden[0]?
          = some false ↔
        0 + 1 = (goToSlideA (constructedState "" false "fas fa-volume-up") 3).1.currentSlide)) :=
  ⟨(claim10_ariaHidden_sync (constructedState "" false "fas fa-volume-up") 3).2 2
      (by decide),
   (claim10_ariaHidden_sync (constructedState "" false "fas fa-volume-up") 3).2 0
      (by decide)⟩

end Presentation
